import Mathlib

/-!
Verification development for the coral image-crop tool (`src/main.rs`).

The core under scrutiny is the selection/crop coordinate engine inside
`App::render` (lines 52-157) and the button handling inside `App::input`
(lines 159-197).  Floating-point (`f64`) quantities are embedded as
rationals `ℚ`; `u32` quantities as `ℕ` with explicit saturation at
`2^32 - 1` where a Rust `as u32` cast occurs.  With rationals, division
by zero yields `0` (the Lean convention), mirroring the fact that the
Rust code performs the division regardless and lets the degenerate
values flow into the clamping step.
-/

namespace Coral

/-- Row-major 2x3 affine matrix, as `vecmath::Matrix2x3<f64>` /
`graphics::math::Matrix2d`: row `i` is `[ai0, ai1, ai2]` and the matrix
sends `(x, y)` to `(a00*x + a01*y + a02, a10*x + a11*y + a12)`. -/
structure Mat2x3 where
  a00 : ℚ
  a01 : ℚ
  a02 : ℚ
  a10 : ℚ
  a11 : ℚ
  a12 : ℚ
deriving DecidableEq, Repr

/-- `vecmath::mat2x3_id`. -/
def mat2x3_id : Mat2x3 := ⟨1, 0, 0, 0, 1, 0⟩

/-- `vecmath::row_mat2x3_mul a b`: affine composition, `b` applied first. -/
def row_mat2x3_mul (a b : Mat2x3) : Mat2x3 where
  a00 := a.a00 * b.a00 + a.a01 * b.a10
  a01 := a.a00 * b.a01 + a.a01 * b.a11
  a02 := a.a00 * b.a02 + a.a01 * b.a12 + a.a02
  a10 := a.a10 * b.a00 + a.a11 * b.a10
  a11 := a.a10 * b.a01 + a.a11 * b.a11
  a12 := a.a10 * b.a02 + a.a11 * b.a12 + a.a12

/-- `graphics::math::translate [x, y]`. -/
def translate (x y : ℚ) : Mat2x3 := ⟨1, 0, x, 0, 1, y⟩

/-- `graphics::math::scale sx sy`. -/
def scaleMat (sx sy : ℚ) : Mat2x3 := ⟨sx, 0, 0, 0, sy, 0⟩

/-- `graphics::Transformed::trans` for `Matrix2d`: `multiply self (translate [x,y])`. -/
def Mat2x3.trans (m : Mat2x3) (x y : ℚ) : Mat2x3 := row_mat2x3_mul m (translate x y)

/-- `graphics::Transformed::scale` for `Matrix2d`: `multiply self (scale sx sy)`. -/
def Mat2x3.scale (m : Mat2x3) (sx sy : ℚ) : Mat2x3 := row_mat2x3_mul m (scaleMat sx sy)

/-- `vecmath::mat2x3_det`. -/
def mat2x3_det (m : Mat2x3) : ℚ := m.a00 * m.a11 - m.a01 * m.a10

/-- `vecmath::mat2x3_inv_det`: `1 / det`.  In `f64` a zero determinant
gives `inf`/`NaN` here; in the `ℚ` embedding `1 / 0 = 0`. -/
def mat2x3_inv_det (m : Mat2x3) : ℚ := 1 / mat2x3_det m

/-- `vecmath::mat2x3_inv`. -/
def mat2x3_inv (m : Mat2x3) : Mat2x3 :=
  let d := mat2x3_inv_det m
  { a00 := m.a11 * d
    a01 := -m.a01 * d
    a02 := (m.a01 * m.a12 - m.a11 * m.a02) * d
    a10 := -m.a10 * d
    a11 := m.a00 * d
    a12 := (m.a10 * m.a02 - m.a00 * m.a12) * d }

/-- `vecmath::row_mat2x3_transform_pos2 m p`. -/
def row_mat2x3_transform_pos2 (m : Mat2x3) (p : ℚ × ℚ) : ℚ × ℚ :=
  (p.1 * m.a00 + p.2 * m.a01 + m.a02, p.1 * m.a10 + p.2 * m.a11 + m.a12)

/-- `main.rs` line 76: `ratio = f64::min(window_w / image_w, window_h / image_h) * 0.95`. -/
def fitRatio (ww wh : ℚ) (iw ih : ℕ) : ℚ :=
  min (ww / (iw : ℚ)) (wh / (ih : ℚ)) * (95 / 100)

/-- `main.rs` lines 66-84: the per-frame view transform
`mat2x3_id.trans(w/2, h/2).scale(ratio, ratio).trans(-(iw/2) as f64, -(ih/2) as f64)`.
Note `image_width / 2` is `u32` (integer) division in the source. -/
def viewTrans (ww wh : ℚ) (iw ih : ℕ) : Mat2x3 :=
  let ratio := fitRatio ww wh iw ih
  ((mat2x3_id.trans (ww / 2) (wh / 2)).scale ratio ratio).trans
    (0 - ((iw / 2 : ℕ) : ℚ)) (0 - ((ih / 2 : ℕ) : ℚ))

example : fitRatio 400 300 800 600 = 19 / 40 := by norm_num [fitRatio]
example : (viewTrans 400 300 800 600).a00 = 19 / 40 := by
  norm_num [viewTrans, fitRatio, Mat2x3.trans, Mat2x3.scale, row_mat2x3_mul,
    translate, scaleMat, mat2x3_id]
example :
    row_mat2x3_transform_pos2 (mat2x3_inv (viewTrans 200 200 100 100)) (100, 100) =
      (50, 50) := by
  norm_num [viewTrans, fitRatio, Mat2x3.trans, Mat2x3.scale, row_mat2x3_mul,
    translate, scaleMat, mat2x3_id, row_mat2x3_transform_pos2, mat2x3_inv,
    mat2x3_inv_det, mat2x3_det, Prod.ext_iff]

/-- Rust `as u32` on a non-negative `f64`: truncate toward zero, saturating at
`u32::MAX`; negative values saturate to `0`.  The source only applies the cast
to `f64::max(0.0, _)`, so truncation coincides with the floor. -/
def u32_sat_cast (q : ℚ) : ℕ := min (2 ^ 32 - 1) (max 0 ⌊q⌋).toNat

/-- `main.rs` lines 118-130, one coordinate of the sanitize step:
`min(image_dim, f64::max(0.0, c) as u32)`. -/
def sanitize_coord (bound : ℕ) (q : ℚ) : ℕ := min bound (u32_sat_cast (max 0 q))

/-- Both coordinates of one corner, sanitized (`main.rs` lines 118-130). -/
def sanitizePoint (iw ih : ℕ) (p : ℚ × ℚ) : ℕ × ℕ :=
  (sanitize_coord iw p.1, sanitize_coord ih p.2)

/-- `u32::checked_sub`. -/
def u32_checked_sub (a b : ℕ) : Option ℕ := if b ≤ a then some (a - b) else none

/-- One size component, `main.rs` lines 138-143:
`a.checked_sub(b).unwrap_or_else(|| b.checked_sub(a).unwrap())`.
A `none` result models the `.unwrap()` panic on the fallback. -/
def checked_abs_sub (a b : ℕ) : Option ℕ :=
  match u32_checked_sub a b with
  | some d => some d
  | none => u32_checked_sub b a

/-- `main.rs` lines 132-146: normalize two sanitized corners into
`(start, size)`.  The x size tries `a.0 - b.0` first, the y size tries
`b.1 - a.1` first, exactly as in the source. -/
def normalizeRect (a b : ℕ × ℕ) : Option ((ℕ × ℕ) × (ℕ × ℕ)) := do
  let w ← checked_abs_sub a.1 b.1
  let h ← checked_abs_sub b.2 a.2
  pure ((min a.1 b.1, min a.2 b.2), (w, h))

/-- `main.rs` lines 109-146: resolve a completed selection `(s, e)` held in
window space into `(start, size)` in image pixels: invert the view
transform, transform both corners, sanitize, normalize. -/
def resolveSelection (ww wh : ℚ) (iw ih : ℕ) (s e : ℚ × ℚ) :
    Option ((ℕ × ℕ) × (ℕ × ℕ)) :=
  let t := viewTrans ww wh iw ih
  let a := row_mat2x3_transform_pos2 (mat2x3_inv t) s
  let b := row_mat2x3_transform_pos2 (mat2x3_inv t) e
  normalizeRect (sanitizePoint iw ih a) (sanitizePoint iw ih b)

/-- The fields of `App` that the selection/crop engine touches.  The image
buffer is tracked by its pixel dimensions (texture dimensions coincide: the
texture is reloaded from the image after every crop).  `savedImage` records
the dimensions of the buffer handed to `Config::save_image`, `shouldClose`
the `Window::set_should_close` flag. -/
structure AppState where
  image : ℕ × ℕ
  areaSel : Option (ℚ × ℚ) × Option (ℚ × ℚ)
  lastMousePos : Option (ℚ × ℚ)
  savedImage : Option (ℕ × ℕ)
  shouldClose : Bool
deriving DecidableEq, Repr

/-- `main.rs` lines 109-156, the crop half of `App::render`: when both
corners of `area_selection` are set, resolve them and replace the image by
`crop_imm(start, size).to_image()` (whose dimensions equal `size` because
`start + size ≤ image size`, proved below), then clear the selection.
`none` models a panic inside the resolution. -/
def renderStep (ww wh : ℚ) (st : AppState) : Option AppState :=
  match st.areaSel with
  | (some s, some e) => do
      let r ← resolveSelection ww wh st.image.1 st.image.2 s e
      pure { st with image := r.2, areaSel := (none, none) }
  | _ => some st

/-- The buttons distinguished by `App::input`. -/
inductive PButton where
  | mouseLeft
  | keyEscape
  | otherButton
deriving DecidableEq, Repr

/-- `piston::ButtonState`. -/
inductive PBtnState where
  | press
  | release
deriving DecidableEq, Repr

/-- `piston::ButtonArgs`, restricted to the fields `App::input` reads. -/
structure PButtonArgs where
  button : PButton
  state : PBtnState
deriving DecidableEq, Repr

/-- `main.rs` lines 159-197, `App::input`: the three button branches in
source order, then the `last_mouse_pos` update. -/
def inputStep (st : AppState) (button : Option PButtonArgs) (mouse : Option (ℚ × ℚ)) :
    AppState :=
  let st :=
    match button with
    | none => st
    | some b =>
      let st :=
        if b.button = .mouseLeft ∧ b.state = .press then
          match st.lastMousePos with
          | some m => { st with areaSel := (some m, none) }
          | none => st
        else st
      let st :=
        if b.button = .mouseLeft ∧ b.state = .release then
          match st.lastMousePos, st.areaSel.1 with
          | some m, some _ => { st with areaSel := (st.areaSel.1, some m) }
          | _, _ => st
        else st
      let st :=
        if b.button = .keyEscape ∧ b.state = .release then
          if st.areaSel.1.isSome then
            { st with areaSel := (none, none) }
          else
            { st with savedImage := some st.image, shouldClose := true }
        else st
      st
  match mouse with
  | some m => { st with lastMousePos := some m }
  | none => st

example : checked_abs_sub 2 5 = some 3 := by decide
example : normalizeRect (0, 10) (3, 2) = some ((0, 2), (3, 8)) := by decide
example : sanitize_coord 10 (7 / 2) = 3 := by
  norm_num [sanitize_coord, u32_sat_cast]
  decide

/-- The checked-subtraction chain always succeeds and computes the unsigned
absolute difference. -/
lemma checked_abs_sub_eq (a b : ℕ) :
    checked_abs_sub a b = some (max a b - min a b) := by
  by_cases h : b ≤ a
  · simp [checked_abs_sub, u32_checked_sub, h]
  · simp [checked_abs_sub, u32_checked_sub, h, Nat.le_of_not_le h]

/-- Normalization does not depend on the order of the two corners. -/
lemma normalizeRect_comm (a b : ℕ × ℕ) : normalizeRect a b = normalizeRect b a := by
  simp [normalizeRect, checked_abs_sub_eq, Nat.min_comm, Nat.max_comm]

/-- A sanitized coordinate never exceeds the image dimension. -/
lemma sanitize_coord_le (bound : ℕ) (q : ℚ) : sanitize_coord bound q ≤ bound :=
  Nat.min_le_left _ _

/-- On a natural-number input, sanitizing is plain `min` with the bound,
provided the bound fits in a `u32` (true of every image dimension). -/
lemma sanitize_coord_nat (bound n : ℕ) (hb : bound ≤ 2 ^ 32 - 1) :
    sanitize_coord bound (n : ℚ) = min bound n := by
  simp only [sanitize_coord, u32_sat_cast]
  rw [max_eq_right (by positivity : (0 : ℚ) ≤ (n : ℚ)), Int.floor_natCast]
  have h3 : (max 0 (n : ℤ)).toNat = n := by omega
  rw [h3]
  omega

/-- Claim C4: resolving a drag with anchor `p` and second corner `q` yields
exactly the same crop origin and size as resolving with anchor `q` and
second corner `p`, for every window size and image size. -/
theorem c4_resolution_symmetric (ww wh : ℚ) (iw ih : ℕ) (p q : ℚ × ℚ) :
    resolveSelection ww wh iw ih p q = resolveSelection ww wh iw ih q p := by
  simp only [resolveSelection]
  exact normalizeRect_comm _ _

/-- Claim C5: each size component computed during normalization equals the
unsigned absolute difference of the corresponding sanitized coordinates, and
when the first `checked_sub` ordering underflows the fallback subtraction
never does — the `.unwrap()` on the second `checked_sub` is unreachable. -/
theorem c5_size_is_abs_diff (a b : ℕ) :
    checked_abs_sub a b = some (max a b - min a b) ∧
      (u32_checked_sub a b = none → (u32_checked_sub b a).isSome = true) := by
  refine ⟨checked_abs_sub_eq a b, fun h => ?_⟩
  by_cases hba : b ≤ a
  · simp [u32_checked_sub, hba] at h
  · simp [u32_checked_sub, Nat.le_of_not_le hba]

/-- Witness for C5 at the concrete corners `a = 2`, `b = 5`, where the first
subtraction ordering does underflow. -/
theorem c5_witness :
    checked_abs_sub 2 5 = some (max 2 5 - min 2 5) ∧
      (u32_checked_sub 2 5 = none → (u32_checked_sub 5 2).isSome = true) :=
  c5_size_is_abs_diff 2 5

/-- Claim C6: for every pair of raw inverted corner coordinates, the
rectangle produced by the sanitize-and-normalize steps satisfies
`origin + size ≤ image size` component-wise (origin and size are `ℕ`-valued
by construction). -/
theorem c6_crop_within_image (iw ih : ℕ) (a b : ℚ × ℚ) (r : (ℕ × ℕ) × (ℕ × ℕ))
    (h : normalizeRect (sanitizePoint iw ih a) (sanitizePoint iw ih b) = some r) :
    r.1.1 + r.2.1 ≤ iw ∧ r.1.2 + r.2.2 ≤ ih := by
  have ha1 : sanitize_coord iw a.1 ≤ iw := sanitize_coord_le _ _
  have ha2 : sanitize_coord ih a.2 ≤ ih := sanitize_coord_le _ _
  have hb1 : sanitize_coord iw b.1 ≤ iw := sanitize_coord_le _ _
  have hb2 : sanitize_coord ih b.2 ≤ ih := sanitize_coord_le _ _
  simp only [normalizeRect, sanitizePoint, checked_abs_sub_eq, Option.bind_eq_bind,
    Option.some_bind, Option.pure_def, Option.some.injEq] at h
  subst h
  refine ⟨?_, ?_⟩ <;> dsimp only <;> omega

/-- Witness for C6 at raw corners `(-5, 20)` and `(7/2, 2)` in a `10 × 10`
image: the resolved rectangle is `origin (0,2)`, `size (3,8)`. -/
theorem c6_witness :
    ((0, 2), (3, 8)).1.1 + ((0, 2), (3, 8)).2.1 ≤ 10 ∧
      ((0, 2), (3, 8)).1.2 + ((0, 2), (3, 8)).2.2 ≤ 10 :=
  c6_crop_within_image 10 10 (-5, 20) (7 / 2, 2) ((0, 2), (3, 8))
    (by norm_num [sanitizePoint, sanitize_coord, u32_sat_cast]; decide)

/-- Claim C7: the per-coordinate clamp to `[0, image_dimension]` is total
(always lands in range), leaves an already-in-bounds coordinate unchanged,
and is idempotent. -/
theorem c7_clamp_idempotent (bound n : ℕ) (q : ℚ)
    (hb : bound ≤ 2 ^ 32 - 1) (hn : n ≤ bound) :
    sanitize_coord bound (n : ℚ) = n ∧
      sanitize_coord bound ((sanitize_coord bound q : ℕ) : ℚ) = sanitize_coord bound q ∧
      sanitize_coord bound q ≤ bound := by
  refine ⟨?_, ?_, sanitize_coord_le _ _⟩
  · rw [sanitize_coord_nat bound n hb]
    omega
  · rw [sanitize_coord_nat bound _ hb]
    have h := sanitize_coord_le bound q
    omega

/-- Witness for C7 at `bound = 100`, in-bounds coordinate `42`, and the
non-integral malformed coordinate `7/2`. -/
theorem c7_witness :
    sanitize_coord 100 ((42 : ℕ) : ℚ) = 42 ∧
      sanitize_coord 100 ((sanitize_coord 100 (7 / 2) : ℕ) : ℚ) =
        sanitize_coord 100 (7 / 2) ∧
      sanitize_coord 100 (7 / 2) ≤ 100 :=
  c7_clamp_idempotent 100 42 (7 / 2) (by norm_num) (by norm_num)

/-- Claim C2, counterexample: for a 3×2 image in a 3×2 window the exact
image-space center `(3/2, 1)` does not map to the window-space center
`(3/2, 1)` — the source translates by the integer halves
`(image_width / 2, image_height / 2)` computed in `u32` division, so the
x-coordinate lands at `79/40`, not `3/2`. -/
theorem c2_counterexample :
    row_mat2x3_transform_pos2 (viewTrans 3 2 3 2) ((3 : ℚ) / 2, (2 : ℚ) / 2) ≠
      ((3 : ℚ) / 2, (2 : ℚ) / 2) := by
  norm_num [viewTrans, fitRatio, Mat2x3.trans, Mat2x3.scale, row_mat2x3_mul, translate,
    scaleMat, mat2x3_id, row_mat2x3_transform_pos2, Prod.ext_iff]

/-- Claim C2 (amended): for every window size and image size with positive
components in which both image dimensions are even — so that the exact
image-space center coincides with the integer point the source translates
by — the image-space center `(image_width/2, image_height/2)` is mapped by
the view transform exactly to the window-space center
`(window_width/2, window_height/2)`. -/
theorem c2_center_maps_to_center (ww wh : ℚ) (iw ih : ℕ)
    (hiw : 0 < iw) (hih : 0 < ih) (hew : 2 ∣ iw) (heh : 2 ∣ ih) :
    row_mat2x3_transform_pos2 (viewTrans ww wh iw ih) ((iw : ℚ) / 2, (ih : ℚ) / 2) =
      (ww / 2, wh / 2) := by
  obtain ⟨k, rfl⟩ := hew
  obtain ⟨l, rfl⟩ := heh
  have hk : (2 * k / 2 : ℕ) = k := by omega
  have hl : (2 * l / 2 : ℕ) = l := by omega
  simp only [viewTrans, fitRatio, Mat2x3.trans, Mat2x3.scale, row_mat2x3_mul, translate,
    scaleMat, mat2x3_id, row_mat2x3_transform_pos2, hk, hl]
  rw [Prod.mk.injEq]
  push_cast
  constructor <;> ring

/-- Witness for C2 (amended): an 800×600 image in a 400×300 window — the
image center `(400, 300)` maps to the window center `(200, 150)`. -/
theorem c2_witness :
    row_mat2x3_transform_pos2 (viewTrans 400 300 800 600)
        (((800 : ℕ) : ℚ) / 2, ((600 : ℕ) : ℚ) / 2) =
      ((400 : ℚ) / 2, (300 : ℚ) / 2) :=
  c2_center_maps_to_center 400 300 800 600 (by decide) (by decide) (by decide) (by decide)

/-- Claim C8: the view-transform scale (both diagonal entries of the
composed matrix) equals `min(window_w/image_w, window_h/image_h) * 0.95`,
and for an 800×600 image in a 400×300 window it is `19/40 = 0.475`. -/
theorem c8_scale_formula (ww wh : ℚ) (iw ih : ℕ)
    (_hww : 0 < ww) (_hwh : 0 < wh) (_hiw : 0 < iw) (_hih : 0 < ih) :
    (viewTrans ww wh iw ih).a00 = min (ww / (iw : ℚ)) (wh / (ih : ℚ)) * (95 / 100) ∧
      (viewTrans ww wh iw ih).a11 = min (ww / (iw : ℚ)) (wh / (ih : ℚ)) * (95 / 100) ∧
      (viewTrans 400 300 800 600).a00 = 19 / 40 := by
  refine ⟨?_, ?_, ?_⟩
  · simp [viewTrans, fitRatio, Mat2x3.trans, Mat2x3.scale, row_mat2x3_mul, translate,
      scaleMat, mat2x3_id]
  · simp [viewTrans, fitRatio, Mat2x3.trans, Mat2x3.scale, row_mat2x3_mul, translate,
      scaleMat, mat2x3_id]
  · norm_num [viewTrans, fitRatio, Mat2x3.trans, Mat2x3.scale, row_mat2x3_mul, translate,
      scaleMat, mat2x3_id]

/-- Witness for C8 at window 400×300, image 800×600. -/
theorem c8_witness :
    (viewTrans 400 300 800 600).a00 =
        min ((400 : ℚ) / ((800 : ℕ) : ℚ)) ((300 : ℚ) / ((600 : ℕ) : ℚ)) * (95 / 100) ∧
      (viewTrans 400 300 800 600).a11 =
        min ((400 : ℚ) / ((800 : ℕ) : ℚ)) ((300 : ℚ) / ((600 : ℕ) : ℚ)) * (95 / 100) ∧
      (viewTrans 400 300 800 600).a00 = 19 / 40 :=
  c8_scale_formula 400 300 800 600 (by norm_num) (by norm_num) (by decide) (by decide)

/-- Claim C9: a left-button press is ignored (selection unchanged) when no
pointer position has ever been observed; otherwise — whether idle or
already holding an anchor — it sets the anchor to the last observed pointer
position and clears any previously stored second corner.  Holds for every
prior state and any pointer update delivered in the same tick. -/
theorem c9_left_press (st : AppState) (mouse : Option (ℚ × ℚ)) :
    (inputStep st (some ⟨.mouseLeft, .press⟩) mouse).areaSel =
      match st.lastMousePos with
      | none => st.areaSel
      | some p => (some p, none) := by
  cases h : st.lastMousePos <;> cases mouse <;> simp [inputStep, h]

/-- Claim C10: on an Escape key release, if a selection anchor is held the
selection alone is cleared (both corners reset) with nothing saved and no
close request; if no anchor is held, the current image is saved and the
window is asked to close, the selection being left as it was. -/
theorem c10_escape_release (st : AppState) (mouse : Option (ℚ × ℚ)) :
    (inputStep st (some ⟨.keyEscape, .release⟩) mouse).areaSel =
        (if st.areaSel.1.isSome then (none, none) else st.areaSel) ∧
      (inputStep st (some ⟨.keyEscape, .release⟩) mouse).savedImage =
        (if st.areaSel.1.isSome then st.savedImage else some st.image) ∧
      (inputStep st (some ⟨.keyEscape, .release⟩) mouse).shouldClose =
        (if st.areaSel.1.isSome then st.shouldClose else true) := by
  cases h : st.areaSel.1 <;> cases mouse <;> simp [inputStep, h]

/-- Claim C1 is violated by the code: a press and release at the same
pointer position (window center of a 200×200 window over a 100×100 image)
resolves to the zero-area rectangle `origin (50,50)`, `size (0,0)`, yet
`render` applies `crop_imm` unconditionally — there is no zero-size check —
so the stored image buffer is replaced by the empty 0×0 crop instead of
being left unchanged. -/
theorem c1_zero_area_crop_applied :
    renderStep 200 200
        (inputStep
          (inputStep
            (inputStep
              { image := (100, 100), areaSel := (none, none), lastMousePos := none,
                savedImage := none, shouldClose := false }
              none (some (100, 100)))
            (some ⟨.mouseLeft, .press⟩) none)
          (some ⟨.mouseLeft, .release⟩) none) =
      some { image := (0, 0), areaSel := (none, none),
             lastMousePos := some (100, 100), savedImage := none, shouldClose := false } := by
  have hs :
      inputStep
          (inputStep
            (inputStep
              { image := (100, 100), areaSel := (none, none), lastMousePos := none,
                savedImage := none, shouldClose := false }
              none (some (100, 100)))
            (some ⟨.mouseLeft, .press⟩) none)
          (some ⟨.mouseLeft, .release⟩) none =
        { image := (100, 100), areaSel := (some (100, 100), some (100, 100)),
          lastMousePos := some (100, 100), savedImage := none, shouldClose := false } := by
    simp [inputStep]
  rw [hs]
  norm_num [renderStep, resolveSelection, viewTrans, fitRatio, Mat2x3.trans, Mat2x3.scale,
    row_mat2x3_mul, translate, scaleMat, mat2x3_id, mat2x3_inv, mat2x3_inv_det, mat2x3_det,
    row_mat2x3_transform_pos2, sanitizePoint, sanitize_coord, u32_sat_cast, normalizeRect,
    checked_abs_sub, u32_checked_sub]

/-- Claim C3 is violated by the code: with the window resized to zero width
mid-drag the view-transform scale is `0` and the matrix is singular, yet
`render` still computes `mat2x3_inv` and applies the crop — there is no
`NonInvertible`/deferred outcome anywhere in the source.  In `f64` the
inversion produces non-finite entries that the sanitize step collapses
(`f64::max(0.0, NaN) = 0.0`, saturating `as u32` cast); in this `ℚ`
embedding division by zero yields `0` with the same end result: the crop is
applied and the 100×100 image buffer is replaced by a 0×0 crop. -/
theorem c3_zero_width_window_crop_applied :
    renderStep 0 200
        { image := (100, 100), areaSel := (some (10, 10), some (150, 150)),
          lastMousePos := none, savedImage := none, shouldClose := false } =
      some { image := (0, 0), areaSel := (none, none),
             lastMousePos := none, savedImage := none, shouldClose := false } := by
  norm_num [renderStep, resolveSelection, viewTrans, fitRatio, Mat2x3.trans, Mat2x3.scale,
    row_mat2x3_mul, translate, scaleMat, mat2x3_id, mat2x3_inv, mat2x3_inv_det, mat2x3_det,
    row_mat2x3_transform_pos2, sanitizePoint, sanitize_coord, u32_sat_cast, normalizeRect,
    checked_abs_sub, u32_checked_sub]

end Coral
